import Mathlib

/-!
Shallow embedding of `src/lista_compras_str.py` (a Streamlit shopping-list
application backed by sqlite) and proofs about the claims of its
specification.

Modelling conventions:
* Python strings are `List Char` (`PyStr`); Python `str.strip()` is `pstrip`,
  `str.lower()` is `lowerL`.
* Python `float` values (sqlite REAL columns, prices, totals) are modelled as
  exact rationals `ℚ`; the claims about floating-point tolerance become exact
  equalities in this model.
* Python `float(text)` is modelled by `pyFloat`, a parser for sign, digits,
  decimal point and exponent, surrounded by optional whitespace, returning
  `Option ℚ`.  The exotic literal forms Python additionally accepts
  (`inf`/`nan`, which have no rational value, and underscore digit grouping)
  are outside the model; no claim touches them.
* The sqlite database is a record `DB` of the three tables; each sqlite
  transaction becomes a pure state transition.  `datetime.now()` is passed in
  as an explicit `fecha` argument.
* The Streamlit `st.cache_data` layer (cleared after every mutation in the
  source) is not modelled: every read sees the current state, exactly as the
  source arranges by clearing the cache inside each mutating call.
-/

namespace ListaCompras

/-- Python strings, modelled as lists of characters. -/
abbrev PyStr := List Char

/-- ASCII whitespace recognised by Python `str.strip()` (the model restricts
Python whitespace stripping to the ASCII whitespace characters). -/
def isPyWs (c : Char) : Bool :=
  c = ' ' || c = '\t' || c = '\n' || c = '\r' || c = '\x0b' || c = '\x0c'

/-- Removal of trailing whitespace (the right half of `str.strip()`). -/
def rstripL (l : PyStr) : PyStr := (l.reverse.dropWhile isPyWs).reverse

/-- Python `str.strip()`: drop leading and trailing whitespace. -/
def pstrip (s : PyStr) : PyStr := rstripL (s.dropWhile isPyWs)

/-- Python `str.lower()` (ASCII case folding suffices for the claims). -/
def lowerL (s : PyStr) : PyStr := s.map Char.toLower

/-- Substring containment, modelling `pandas.Series.str.contains` for search
text without regex metacharacters (the source feeds the raw search box text
to `str.contains`, which treats it as a regex; for the plain alphabetic
search terms used in the claims the two coincide). -/
def containsSub (hay needle : PyStr) : Bool :=
  (List.range (hay.length + 1)).any (fun i => (hay.drop i).take needle.length = needle)

/-- Numeric value of a digit string (most significant first). -/
def digitsToNat (ds : List Char) : ℕ :=
  ds.foldl (fun a c => a * 10 + (c.toNat - '0'.toNat)) 0

/-- Optional sign at the head of a numeric literal; returns the sign as a
rational factor together with the rest of the input. -/
def parseSign : PyStr → ℚ × PyStr
  | '+' :: r => (1, r)
  | '-' :: r => (-1, r)
  | s => (1, s)

/-- Exponent tail of a float literal: either nothing is left, or
`e`/`E` followed by an optionally signed digit string consuming the whole
rest.  Returns the exponent. -/
def parseExpPart (s : PyStr) : Option ℤ :=
  match s with
  | [] => some 0
  | c :: r =>
    if c = 'e' || c = 'E' then
      let sg := parseSign r
      let ds := sg.2.takeWhile Char.isDigit
      let rest := sg.2.dropWhile Char.isDigit
      if ds = [] || rest ≠ [] then none
      else some (if sg.1 = -1 then -(digitsToNat ds : ℤ) else (digitsToNat ds : ℤ))
    else none

/-- Core of Python `float(text)` on already-stripped text: optional sign,
then either `digits [. digits]` or `. digits`, then an optional exponent,
consuming the entire input; any leftover character fails. -/
def parseDecCore (s : PyStr) : Option ℚ :=
  let sg := parseSign s
  let ip := sg.2.takeWhile Char.isDigit
  let s2 := sg.2.dropWhile Char.isDigit
  match s2 with
  | '.' :: s3 =>
    let fp := s3.takeWhile Char.isDigit
    let s4 := s3.dropWhile Char.isDigit
    if ip = [] && fp = [] then none
    else
      match parseExpPart s4 with
      | none => none
      | some e =>
        some (sg.1 * ((digitsToNat ip : ℚ) + (digitsToNat fp : ℚ) / 10 ^ fp.length) * 10 ^ e)
  | _ =>
    if ip = [] then none
    else
      match parseExpPart s2 with
      | none => none
      | some e => some (sg.1 * (digitsToNat ip : ℚ) * 10 ^ e)

/-- Python `float(text)`: `float` itself tolerates surrounding whitespace. -/
def pyFloat (s : PyStr) : Option ℚ := parseDecCore (pstrip s)

/-- Model of `calcular_subtotal(cantidad, precio, oferta)`: no offer
(`None` or the empty string, both falsy in Python) charges
`cantidad * precio`; the literal tag `2x1` (after stripping) charges
`(cantidad // 2 + cantidad % 2) * precio`; text parsing as a float `d`
charges `cantidad * precio * (1 - d)`; anything else falls back to
`cantidad * precio`.  Quantities are integers at least 1 in the application,
so `ℕ` division and remainder agree with Python `//` and `%`. -/
def calcular_subtotal (cantidad : ℕ) (precio : ℚ) (oferta : Option PyStr) : ℚ :=
  match oferta with
  | none => cantidad * precio
  | some s =>
    if s = [] then cantidad * precio
    else
      let t := pstrip s
      if t = "2x1".toList then ((cantidad / 2 + cantidad % 2 : ℕ) : ℚ) * precio
      else
        match pyFloat t with
        | some d => cantidad * precio * (1 - d)
        | none => cantidad * precio

/-- Model of `calcular_totales(df)`, restricted to what the claims
use: the sum of the computed subtotals of the rows
`(quantity, price, offer)`. -/
def calcular_totales (rows : List (ℕ × ℚ × Option PyStr)) : ℚ :=
  (rows.map (fun r => calcular_subtotal r.1 r.2.1 r.2.2)).sum

/-- A row of the `shopping_list` table (the Active List). -/
structure LineItem where
  id : ℕ
  name : PyStr
  quantity : ℕ
  price : ℚ
  offer : Option PyStr
  deriving DecidableEq

/-- A row of the `shopping_history` table (an archived Purchase). -/
structure Purchase where
  id : ℕ
  date : PyStr
  store : PyStr
  total : ℚ
  deriving DecidableEq

/-- A row of the `purchase_details` table (a frozen PurchaseLineItem); its
own autoincremented surrogate `id` column is never read by the application
and is not modelled. -/
structure PurchaseDetail where
  purchaseId : ℕ
  name : PyStr
  quantity : ℕ
  price : ℚ
  offer : Option PyStr
  deriving DecidableEq

/-- The sqlite database: the three tables plus the autoincrement counter of
`shopping_history`. -/
structure DB where
  shoppingList : List LineItem
  history : List Purchase
  details : List PurchaseDetail
  nextHistoryId : ℕ
  deriving DecidableEq

/-- The `(quantity, price, offer)` columns of an active row, as consumed by
`calcular_totales`. -/
def itemRow (it : LineItem) : ℕ × ℚ × Option PyStr := (it.quantity, it.price, it.offer)

/-- The `(quantity, price, offer)` columns of an archived detail row. -/
def detailRow (d : PurchaseDetail) : ℕ × ℚ × Option PyStr := (d.quantity, d.price, d.offer)

/-- Model of `obtener_detalle_compra(purchase_id)`:
`SELECT name, quantity, price, offer FROM purchase_details WHERE purchase_id = ?`. -/
def obtener_detalle_compra (db : DB) (pid : ℕ) : List (PyStr × ℕ × ℚ × Option PyStr) :=
  (db.details.filter (fun d => d.purchaseId = pid)).map
    (fun d => (d.name, d.quantity, d.price, d.offer))

/-- The recomputed total shown by `ver_historial`: it feeds the detail rows
of one purchase back through `calcular_totales`. -/
def recomputeDetalleTotal (db : DB) (pid : ℕ) : ℚ :=
  calcular_totales ((obtener_detalle_compra db pid).map (fun r => (r.2.1, r.2.2.1, r.2.2.2)))

/-- Model of `borrar_lista()`: `DELETE FROM shopping_list`. -/
def borrar_lista (db : DB) : DB := { db with shoppingList := [] }

/-- Model of `guardar_historial(total, comercio)`, with the two
fallible sqlite transactions made explicit.  The first transaction inserts
the `shopping_history` row and one `purchase_details` row per current
`shopping_list` row, and commits; `failTxn = true` models that transaction
raising (the `with` block rolls everything back and the `except` clause
catches, so nothing runs afterwards).  The second transaction is
`borrar_lista()`, whose own `try/except` swallows any failure;
`failClear = true` models its `DELETE` raising, after which execution
continues with the list untouched.  `fecha` stands for
`datetime.now().strftime("%Y-%m-%d")`. -/
def guardarHistorialF (db : DB) (total : ℚ) (comercio fecha : PyStr)
    (failTxn failClear : Bool) : DB :=
  if failTxn then db
  else
    let pid := db.nextHistoryId
    let db1 : DB :=
      { db with
        history := db.history ++ [⟨pid, fecha, pstrip comercio, total⟩],
        details := db.details ++
          db.shoppingList.map (fun it => ⟨pid, it.name, it.quantity, it.price, it.offer⟩),
        nextHistoryId := pid + 1 }
    if failClear then db1 else borrar_lista db1

/-- The happy path of `guardar_historial` (both transactions succeed). -/
def guardar_historial (db : DB) (total : ℚ) (comercio fecha : PyStr) : DB :=
  guardarHistorialF db total comercio fecha false false

/-- Outcome of the checkout interaction in `gestionar_lista`. -/
inductive CheckoutOutcome where
  /-- The Active List is empty: `gestionar_lista` renders only the
  informational message and no checkout button exists to press. -/
  | emptyListInfo
  /-- Outcome of `st.error("Ingresa el nombre del comercio")`: blank store name. -/
  | storeError
  /-- Outcome in which `guardar_historial` ran. -/
  | saved
  deriving DecidableEq

/-- The checkout path of `gestionar_lista`: with a non-empty list the source
computes `total` from the rows of the *search-filtered* view
(`df_filtrado`, using the lowercased search text), then on the
`Guardar y vaciar lista` button press rejects a store name that is blank
after stripping, and otherwise calls
`guardar_historial(total, comercio.strip())`. -/
def checkoutButton (db : DB) (comercio busqueda fecha : PyStr) : CheckoutOutcome × DB :=
  if db.shoppingList = [] then (.emptyListInfo, db)
  else
    let b := lowerL busqueda
    let filtrado := if b = [] then db.shoppingList
      else db.shoppingList.filter (fun it => containsSub (lowerL it.name) b)
    let total := calcular_totales (filtrado.map itemRow)
    if pstrip comercio = [] then (.storeError, db)
    else (.saved, guardar_historial db total (pstrip comercio) fecha)

/-- The summary record built by `obtener_resumen_gastos`. -/
structure Resumen where
  total_gastado : ℚ
  num_compras : ℕ
  promedio : ℚ
  gastos_por_comercio : List (PyStr × ℚ)
  deriving DecidableEq

/-- Model of `obtener_resumen_gastos()`: with an empty history it
returns `None`; otherwise the sum, count, guarded average and per-store sums
of the `shopping_history` totals.  The source additionally sorts the group
keys (pandas `groupby`) and rounds the per-store sums to 2 decimals for
display; no claim depends on key order or display rounding. -/
def obtener_resumen_gastos (db : DB) : Option Resumen :=
  if db.history = [] then none
  else
    let total := (db.history.map Purchase.total).sum
    let n := db.history.length
    some
      { total_gastado := total,
        num_compras := n,
        promedio := if 0 < n then total / n else 0,
        gastos_por_comercio :=
          ((db.history.map Purchase.store).dedup).map
            (fun s => (s, ((db.history.filter (fun pu => pu.store = s)).map Purchase.total).sum)) }

/-- A database with no archived purchases and no active items (counters
start at 1 as sqlite autoincrement does). -/
def emptyHistDB : DB := ⟨[], [], [], 1⟩

/-- An Active List holding one item (Pan, quantity 1, price 10). -/
def listaUna : DB := ⟨[⟨1, "Pan".toList, 1, 10, none⟩], [], [], 1⟩

/-- An Active List holding two items (Arroz at 10 and Leche at 5). -/
def listaDos : DB :=
  ⟨[⟨1, "Arroz".toList, 1, 10, none⟩, ⟨2, "Leche".toList, 1, 5, none⟩], [], [], 1⟩

/-! ### Elementary facts about whitespace stripping -/

theorem dwIdem (p : Char → Bool) (l : List Char) :
    (l.dropWhile p).dropWhile p = l.dropWhile p := by
  induction l with
  | nil => rfl
  | cons c t ih =>
    by_cases h : p c
    · simp [List.dropWhile_cons, h, ih]
    · simp [List.dropWhile_cons, h]

theorem dwSelf (p : Char → Bool) (c : Char) (t : List Char) (hc : p c = false) :
    (c :: t).dropWhile p = c :: t := by
  simp [List.dropWhile_cons, hc]

theorem dwLenLe (p : Char → Bool) (l : List Char) :
    (l.dropWhile p).length ≤ l.length := by
  induction l with
  | nil => simp
  | cons c t ih =>
    by_cases h : p c
    · simp only [List.dropWhile_cons, h, if_true]
      exact Nat.le_succ_of_le ih
    · simp [List.dropWhile_cons, h]

theorem dwAppendSingle (p : Char → Bool) (c : Char) (hc : p c = false) (xs : List Char) :
    (xs ++ [c]).dropWhile p = xs.dropWhile p ++ [c] := by
  induction xs with
  | nil => simp [List.dropWhile_cons, hc]
  | cons x t ih =>
    by_cases h : p x
    · simpa [List.dropWhile_cons, h] using ih
    · simp [List.dropWhile_cons, h]

theorem rstripL_cons (c : Char) (hc : isPyWs c = false) (t : List Char) :
    rstripL (c :: t) = c :: rstripL t := by
  unfold rstripL
  rw [List.reverse_cons, dwAppendSingle isPyWs c hc, List.reverse_append]
  rfl

theorem rstripL_idem (l : List Char) : rstripL (rstripL l) = rstripL l := by
  unfold rstripL
  rw [List.reverse_reverse, dwIdem]

/-- A list whose head is not whitespace (or which is empty) is untouched by
left stripping after right stripping. -/
theorem dw_rstripL (m : List Char) (hm : m.dropWhile isPyWs = m) :
    (rstripL m).dropWhile isPyWs = rstripL m := by
  cases m with
  | nil => rfl
  | cons c t =>
    have hc : isPyWs c = false := by
      by_contra h
      have hc' : isPyWs c = true := by
        cases hcv : isPyWs c
        · exact absurd hcv h
        · rfl
      rw [List.dropWhile_cons, if_pos hc'] at hm
      have := dwLenLe isPyWs t
      rw [hm] at this
      simp at this
    rw [rstripL_cons c hc t]
    exact dwSelf isPyWs c _ hc

theorem pstrip_idem (s : PyStr) : pstrip (pstrip s) = pstrip s := by
  unfold pstrip
  rw [dw_rstripL (s.dropWhile isPyWs) (dwIdem isPyWs s), rstripL_idem]

/-! ### Branch lemmas for `calcular_subtotal` -/

theorem calc_none (q : ℕ) (p : ℚ) : calcular_subtotal q p none = q * p := rfl

theorem calc_empty (q : ℕ) (p : ℚ) : calcular_subtotal q p (some []) = q * p := rfl

theorem pyFloat_nil : pyFloat [] = none := rfl

theorem pyFloat_2x1 : pyFloat "2x1".toList = none := rfl

theorem pyFloat_pstrip (s : PyStr) : pyFloat (pstrip s) = pyFloat s := by
  unfold pyFloat
  rw [pstrip_idem]

theorem calc_2x1 (q : ℕ) (p : ℚ) (s : PyStr) (hs : s ≠ []) (h : pstrip s = "2x1".toList) :
    calcular_subtotal q p (some s) = ((q / 2 + q % 2 : ℕ) : ℚ) * p := by
  simp [calcular_subtotal, if_neg hs, h]

theorem calc_rate (q : ℕ) (p : ℚ) (s : PyStr) (d : ℚ) (h : pyFloat s = some d) :
    calcular_subtotal q p (some s) = q * p * (1 - d) := by
  have hs : s ≠ [] := by
    intro he
    rw [he, pyFloat_nil] at h
    exact Option.noConfusion h
  have h2 : pstrip s ≠ "2x1".toList := by
    intro he
    rw [← pyFloat_pstrip, he, pyFloat_2x1] at h
    exact Option.noConfusion h
  have hf : pyFloat (pstrip s) = some d := by rw [pyFloat_pstrip]; exact h
  simp [calcular_subtotal, if_neg hs, if_neg h2, hf]
  intro he
  exact absurd he h2

theorem calc_fallback (q : ℕ) (p : ℚ) (s : PyStr) (hs : s ≠ [])
    (h2 : pstrip s ≠ "2x1".toList) (hf : pyFloat s = none) :
    calcular_subtotal q p (some s) = q * p := by
  have hf' : pyFloat (pstrip s) = none := by rw [pyFloat_pstrip]; exact hf
  simp [calcular_subtotal, if_neg hs, if_neg h2, hf']
  intro he
  exact absurd he h2

/-! ### Claims about the Pricing Rule Evaluator -/

/-- C5: for every quantity `q` and unit price `p`, the subtotal under the
offer rule `2x1` is `(q / 2 + q % 2) * p`, which equals the ceiling of
`q / 2` times `p`. -/
theorem c5_subtotal_2x1 (q : ℕ) (p : ℚ) :
    calcular_subtotal q p (some ("2x1".toList)) = ((q / 2 + q % 2 : ℕ) : ℚ) * p ∧
    ((q / 2 + q % 2 : ℕ) : ℚ) * p = (⌈(q : ℚ) / 2⌉ : ℚ) * p := by
  constructor
  · exact calc_2x1 q p _ (by decide) (by decide)
  · have hceil : ⌈(q : ℚ) / 2⌉ = ((q / 2 + q % 2 : ℕ) : ℤ) := by
      rcases Nat.even_or_odd q with ⟨k, hk⟩ | ⟨k, hk⟩
      · subst hk
        have h1 : ((k + k : ℕ) : ℚ) / 2 = ((k : ℤ) : ℚ) := by push_cast; ring
        rw [h1, Int.ceil_intCast]
        have : (k + k) / 2 + (k + k) % 2 = k := by omega
        rw [this]
      · subst hk
        have h1 : ((2 * k + 1 : ℕ) : ℚ) / 2 = 1 / 2 + ((k : ℤ) : ℚ) := by push_cast; ring
        have h2 : ⌈(1 : ℚ) / 2 + ((k : ℤ) : ℚ)⌉ = ⌈(1 : ℚ) / 2⌉ + k := Int.ceil_add_int _ k
        have h3 : ⌈(1 : ℚ) / 2⌉ = 1 := by
          rw [Int.ceil_eq_iff]
          norm_num
        have h4 : (2 * k + 1) / 2 + (2 * k + 1) % 2 = k + 1 := by omega
        rw [h1, h2, h3, h4]
        push_cast
        ring
    rw [hceil]
    norm_cast

/-- C6: whenever the offer text parses as a number `d` (by the model of
Python `float`), the subtotal is `q * p * (1 - d)`; no bound on `d` is
enforced, so a rate above 1 produces a negative subtotal and a negative
rate an inflated one. -/
theorem c6_fractional_rate (q : ℕ) (p : ℚ) (s : PyStr) (d : ℚ) (h : pyFloat s = some d) :
    calcular_subtotal q p (some s) = q * p * (1 - d) ∧
    calcular_subtotal 1 10 (some ("2".toList)) = -10 ∧
    calcular_subtotal 1 10 (some ("-1".toList)) = 20 := by
  refine ⟨calc_rate q p s d h, ?_, ?_⟩
  · have h2 : pyFloat "2".toList = some ((1 : ℚ) * ((2 : ℕ) : ℚ) * 10 ^ (0 : ℤ)) := rfl
    rw [calc_rate 1 10 _ _ h2]
    norm_num
  · have h2 : pyFloat "-1".toList = some ((-1 : ℚ) * ((1 : ℕ) : ℚ) * 10 ^ (0 : ℤ)) := rfl
    rw [calc_rate 1 10 _ _ h2]
    norm_num

/-- C6 witness: the theorem applied to quantity 4, price 100 and the rule
text `0.5`, whose parse is the rate one half. -/
theorem c6_fractional_rate_witness :
    calcular_subtotal 4 100 (some ("0.5".toList)) = 4 * 100 * (1 - 1 / 2) := by
  have hp : pyFloat "0.5".toList =
      some ((1 : ℚ) * (((0 : ℕ) : ℚ) + ((5 : ℕ) : ℚ) / 10 ^ 1) * 10 ^ (0 : ℤ)) := rfl
  have hp' : pyFloat "0.5".toList = some (1 / 2) := by rw [hp]; norm_num
  exact (c6_fractional_rate 4 100 ("0.5".toList) (1 / 2) hp').1

/-- C7: an absent, empty or malformed offer rule yields the undiscounted
subtotal `q * p`; malformed text (`free`, `abc`, anything that neither is
`2x1` nor parses as a float) silently degrades, never errors. -/
theorem c7_no_offer_fallback (q : ℕ) (p : ℚ) (s : PyStr)
    (h2 : pstrip s ≠ "2x1".toList) (hf : pyFloat s = none) :
    calcular_subtotal q p none = q * p ∧
    calcular_subtotal q p (some []) = q * p ∧
    calcular_subtotal q p (some s) = q * p ∧
    calcular_subtotal q p (some ("free".toList)) = q * p ∧
    calcular_subtotal q p (some ("abc".toList)) = q * p := by
  refine ⟨rfl, rfl, ?_, ?_, ?_⟩
  · by_cases hs : s = []
    · rw [hs]; exact calc_empty q p
    · exact calc_fallback q p s hs h2 hf
  · exact calc_fallback q p _ (by decide) (by decide) rfl
  · exact calc_fallback q p _ (by decide) (by decide) rfl

/-- C7 witness: the theorem applied to quantity 3, price 7 and the
malformed rule text `xyz`. -/
theorem c7_no_offer_fallback_witness :
    calcular_subtotal 3 7 (some ("xyz".toList)) = 3 * 7 :=
  (c7_no_offer_fallback 3 7 ("xyz".toList) (by decide) rfl).2.2.1

/-- C10: the subtotal is invariant under surrounding whitespace in the
offer text; in particular a padded `2x1` gets the bundle price, a padded
rate text the fractional discount, and whitespace-only text no discount. -/
theorem c10_trim_invariant (q : ℕ) (p : ℚ) (r : PyStr) :
    calcular_subtotal q p (some r) = calcular_subtotal q p (some (pstrip r)) ∧
    calcular_subtotal 5 10 (some (" 2x1 ".toList)) = 30 ∧
    calcular_subtotal 3 100 (some (" 0.10 ".toList)) = 270 ∧
    calcular_subtotal 2 7 (some ("   ".toList)) = 14 := by
  refine ⟨?_, ?_, ?_, ?_⟩
  · by_cases hr : r = []
    · rw [hr]; exact rfl
    · by_cases hpr : pstrip r = []
      · have hl : calcular_subtotal q p (some r) = q * p := by
          refine calc_fallback q p r hr ?_ ?_
          · rw [hpr]; decide
          · rw [pyFloat, hpr]; rfl
        rw [hl, hpr]
        exact (calc_empty q p).symm
      · simp only [calcular_subtotal, if_neg hr, if_neg hpr, pstrip_idem]
  · rw [calc_2x1 5 10 _ (by decide) (by decide)]
    norm_num
  · have hp : pyFloat " 0.10 ".toList =
        some ((1 : ℚ) * (((0 : ℕ) : ℚ) + ((10 : ℕ) : ℚ) / 10 ^ 2) * 10 ^ (0 : ℤ)) := rfl
    have hp' : pyFloat " 0.10 ".toList = some (1 / 10) := by rw [hp]; norm_num
    rw [calc_rate 3 100 _ _ hp']
    norm_num
  · rw [calc_fallback 2 7 ("   ".toList) (by decide) (by decide) rfl]
    norm_num

/-! ### Claims about the Aggregation Reporter and detail lookup -/

/-- C8 counterexample: with zero purchases the reporter does not return a
zero summary — `obtener_resumen_gastos` returns `None` (so in particular no
record with `total_gastado = 0` and `promedio = 0` is produced). -/
theorem c8_counterexample :
    ¬ ∃ r : Resumen, obtener_resumen_gastos emptyHistDB = some r ∧
      r.total_gastado = 0 ∧ r.promedio = 0 := by
  rintro ⟨r, hr, -, -⟩
  rw [show obtener_resumen_gastos emptyHistDB = none from rfl] at hr
  exact Option.noConfusion hr

/-- C8 (amended): with zero purchases the reporter returns no summary at
all (`None`, surfaced as an informational message, not an error); with a
non-empty archive it returns a summary whose `promedio` equals
`total_gastado / num_compras`, with `total_gastado` the sum of the stored
totals and `num_compras` the purchase count. -/
theorem c8_resumen (db : DB) (h : db.history ≠ []) :
    obtener_resumen_gastos emptyHistDB = none ∧
    ∃ r : Resumen, obtener_resumen_gastos db = some r ∧
      r.total_gastado = (db.history.map Purchase.total).sum ∧
      r.num_compras = db.history.length ∧
      r.promedio = r.total_gastado / r.num_compras := by
  refine ⟨rfl, ?_⟩
  rw [obtener_resumen_gastos, if_neg h]
  refine ⟨_, rfl, rfl, rfl, ?_⟩
  have hn : 0 < db.history.length := List.length_pos.mpr h
  simp only [if_pos hn]

/-- C8 witness: the amended claim evaluated on a one-purchase archive. -/
theorem c8_resumen_witness :
    ∃ r : Resumen,
      obtener_resumen_gastos ⟨[], [⟨1, "2024-01-01".toList, "A".toList, 40⟩], [], 2⟩ = some r ∧
      r.total_gastado = ([(40 : ℚ)]).sum ∧
      r.num_compras = 1 ∧
      r.promedio = r.total_gastado / r.num_compras :=
  (c8_resumen ⟨[], [⟨1, "2024-01-01".toList, "A".toList, 40⟩], [], 2⟩ (by decide)).2

/-- C9: looking up the line items of a purchase id that is absent from the
archive returns the empty sequence, not an error; the hypothesis states the
referential integrity the application maintains (every stored detail row
references an archived purchase). -/
theorem c9_unknown_id_empty (db : DB) (pid : ℕ)
    (hwf : ∀ d ∈ db.details, ∃ pu ∈ db.history, pu.id = d.purchaseId)
    (hid : ∀ pu ∈ db.history, pu.id ≠ pid) :
    obtener_detalle_compra db pid = [] := by
  rw [obtener_detalle_compra]
  have hnone : db.details.filter (fun d => d.purchaseId = pid) = [] := by
    rw [List.filter_eq_nil_iff]
    intro d hd
    rcases hwf d hd with ⟨pu, hpu, hpid⟩
    simp only [decide_eq_true_eq]
    intro he
    exact hid pu hpu (by rw [hpid, he])
  rw [hnone]
  rfl

/-- C9 witness: a database holding one purchase (id 1) with one detail row,
queried at the unknown id 2. -/
theorem c9_unknown_id_empty_witness :
    obtener_detalle_compra
      ⟨[], [⟨1, "2024-01-01".toList, "A".toList, 10⟩],
       [⟨1, "Pan".toList, 1, 10, none⟩], 2⟩ 2 = [] := by
  refine c9_unknown_id_empty _ 2 ?_ ?_
  · intro d hd
    refine ⟨⟨1, "2024-01-01".toList, "A".toList, 10⟩, by simp, ?_⟩
    have : d = ⟨1, "Pan".toList, 1, 10, none⟩ := by
      simpa using hd
    rw [this]
  · intro pu hpu
    have : pu = ⟨1, "2024-01-01".toList, "A".toList, 10⟩ := by
      simpa using hpu
    rw [this]
    decide

/-! ### Claims about the Checkout Coordinator -/

/-- C2: the checkout is not all-or-nothing.  The history-plus-details
insert is one committed transaction, but the list clearing runs in a second
transaction (`borrar_lista`) whose failure is swallowed; when that second
transaction fails, the new Purchase and its line item are visible while the
Active List still holds its item — the state the claim forbids. -/
theorem c2_partial_commit :
    (guardarHistorialF listaUna 10 ("X".toList) ("2024-01-01".toList) false true).shoppingList
        = listaUna.shoppingList ∧
    (guardarHistorialF listaUna 10 ("X".toList) ("2024-01-01".toList) false true).history
        = [⟨1, "2024-01-01".toList, "X".toList, 10⟩] ∧
    (guardarHistorialF listaUna 10 ("X".toList) ("2024-01-01".toList) false true).details
        = [⟨1, "Pan".toList, 1, 10, none⟩] ∧
    listaUna.history = [] ∧ listaUna.details = [] ∧ listaUna.shoppingList ≠ [] := by
  refine ⟨rfl, rfl, rfl, rfl, rfl, ?_⟩
  intro h
  exact List.noConfusion h

/-- C3 counterexample: the archive routine performs no emptiness check —
invoked on a database whose Active List has zero items it still creates a
Purchase (so checkout with zero items does not "fail ... and create no
Purchase"; no EmptyListError exists anywhere in the source). -/
theorem c3_counterexample :
    (guardar_historial emptyHistDB 0 ("X".toList) ("2024-01-01".toList)).history ≠
      emptyHistDB.history := by
  intro h
  rw [show (guardar_historial emptyHistDB 0 ("X".toList) ("2024-01-01".toList)).history
      = [⟨1, "2024-01-01".toList, "X".toList, 0⟩] from rfl] at h
  exact List.noConfusion h

/-- C3 (amended): with zero active items the UI renders no checkout control
at all, so a checkout cannot even be attempted — no error is raised and no
Purchase is created, the state is untouched; the underlying archive routine
itself, called directly with zero items, creates a Purchase with the given
total and no line items. -/
theorem c3_empty_checkout (db : DB) (comercio busqueda fecha : PyStr)
    (h : db.shoppingList = []) :
    checkoutButton db comercio busqueda fecha = (.emptyListInfo, db) ∧
    (∀ (total : ℚ) (c2 f2 : PyStr),
      (guardar_historial db total c2 f2).history =
          db.history ++ [⟨db.nextHistoryId, f2, pstrip c2, total⟩] ∧
        (guardar_historial db total c2 f2).details = db.details) := by
  constructor
  · rw [checkoutButton, if_pos h]
  · intro total c2 f2
    constructor
    · rfl
    · simp [guardar_historial, guardarHistorialF, borrar_lista, h]

/-- C3 witness: the amended claim evaluated on the empty database. -/
theorem c3_empty_checkout_witness :
    checkoutButton emptyHistDB ("X".toList) [] ("2024-01-01".toList)
        = (.emptyListInfo, emptyHistDB) ∧
    (guardar_historial emptyHistDB 0 ("X".toList) ("2024-01-01".toList)).details
        = emptyHistDB.details :=
  ⟨(c3_empty_checkout emptyHistDB ("X".toList) [] ("2024-01-01".toList) rfl).1,
   ((c3_empty_checkout emptyHistDB ("X".toList) [] ("2024-01-01".toList) rfl).2
      0 ("X".toList) ("2024-01-01".toList)).2⟩

/-- C4: a store name that is blank after stripping makes checkout stop with
the validation error message, creating no Purchase and leaving the whole
state untouched; an accepted store name is stored stripped of surrounding
whitespace. -/
theorem c4_store_validation (db : DB) (comercio busqueda fecha : PyStr)
    (hne : db.shoppingList ≠ []) :
    (pstrip comercio = [] →
      checkoutButton db comercio busqueda fecha = (.storeError, db)) ∧
    (pstrip comercio ≠ [] →
      ∃ total : ℚ, (checkoutButton db comercio busqueda fecha).1 = .saved ∧
        (checkoutButton db comercio busqueda fecha).2.history =
          db.history ++ [⟨db.nextHistoryId, fecha, pstrip comercio, total⟩]) := by
  constructor
  · intro hc
    simp [checkoutButton, if_neg hne, hc]
  · intro hc
    refine ⟨calcular_totales ((if lowerL busqueda = [] then db.shoppingList
        else db.shoppingList.filter
          (fun it => containsSub (lowerL it.name) (lowerL busqueda))).map itemRow), ?_, ?_⟩
    · simp [checkoutButton, if_neg hne, if_neg hc]
    · simp [checkoutButton, guardar_historial, guardarHistorialF, borrar_lista,
        if_neg hne, if_neg hc, pstrip_idem]

/-- C4 witness: a whitespace-only store name on a one-item list is
rejected with the state unchanged. -/
theorem c4_store_validation_witness :
    checkoutButton listaUna ("   ".toList) [] ("2024-01-01".toList)
        = (.storeError, listaUna) :=
  (c4_store_validation listaUna ("   ".toList) [] ("2024-01-01".toList)
      (by intro h; exact List.noConfusion h)).1 (by decide)

/-- C1: archived totals need not reconcile with archived line items.  With
the search box filtering the view (text `Leche`), checkout stores the
total of the filtered view (5) while archiving the line items of the whole
list; recomputing the detail of the archived purchase via the Pricing Rule
Evaluator yields 15, not the stored 5. -/
theorem c1_filtered_total_mismatch :
    (checkoutButton listaDos ("X".toList) ("Leche".toList) ("2024-01-01".toList)).1
        = .saved ∧
    ((checkoutButton listaDos ("X".toList) ("Leche".toList) ("2024-01-01".toList)).2.history.map
        Purchase.total) = [5] ∧
    recomputeDetalleTotal
        (checkoutButton listaDos ("X".toList) ("Leche".toList) ("2024-01-01".toList)).2 1
      = 15 ∧
    (5 : ℚ) ≠ 15 := by
  have h1 : (checkoutButton listaDos ("X".toList) ("Leche".toList) ("2024-01-01".toList)).2 =
      ⟨[], [⟨1, "2024-01-01".toList, "X".toList, calcular_totales [(1, (5 : ℚ), none)]⟩],
       [⟨1, "Arroz".toList, 1, 10, none⟩, ⟨1, "Leche".toList, 1, 5, none⟩], 2⟩ := rfl
  have htot : calcular_totales [(1, (5 : ℚ), none)] = 5 := by
    simp [calcular_totales, calcular_subtotal]
  refine ⟨rfl, ?_, ?_, by norm_num⟩
  · rw [h1]
    simp [htot]
  · rw [h1]
    show calcular_totales [(1, (10 : ℚ), none), (1, (5 : ℚ), none)] = 15
    simp [calcular_totales, calcular_subtotal]
    norm_num

end ListaCompras
